import Mathlib

/-!
Shallow embedding of the five AWS Lambda handlers of the billing repository
(billing-app/src/billing-api/functions), one namespace per handler file:

* CreateApp  — create-invoice/app.py
* UpdateApp  — update-invoice/app.py
* DeleteApp  — delete-invoice/app.py
* GetApp     — get-invoice/app.py (both get_invoice and its two-source get_invoices)
* GetAllApp  — get-all-invoices/app.py

Each handler is modelled as a pure function over an environment record that
fixes the outcome of every external interaction (JSON body parsing, the Alegra
HTTP calls, the secret lookup, the MongoDB connection and each MongoDB
operation), returning the handler response together with a trace of the side
effects performed (remote calls made, local writes committed).  Exceptions are
modelled with an explicit Except pass followed by the translation that each
file's try/except chain applies, exactly mirroring the Python control flow.

Modelling conventions taken from the source:

* Python dict payloads are abstracted to their key lists; pydantic model
  validation is abstracted to presence of the model's required fields, and a
  pydantic ValidationError carries the list of missing fields.  The 400 message
  built by the handlers joins one entry per missing field.
* `raise ValidationError("...")` in create-invoice/app.py passes a plain string
  to the pydantic ValidationError constructor.  Both pydantic 1.x
  (`__init__(errors, model)`) and pydantic 2.x (no public constructor) raise a
  TypeError on that call, so at run time the handler raises a TypeError at that
  line; it is caught by the generic `except Exception` branch, not by the
  `except ValidationError` branch.  The model encodes this as `otherError`.
* `response.raise_for_status()` raises requests.exceptions.HTTPError, a
  subclass of RequestException; network failures raise RequestException
  subclasses as well.  Both are `reqError` below.  A `response.json()` decode
  failure raises a ValueError, which is `otherError`.
* `bson.ObjectId(s)` succeeds exactly when `s` is a 24-character hex string;
  otherwise it raises InvalidId (caught only by the generic `except Exception`
  branch, giving a 500 response).
* All five files share the same `data_response` helper (status code plus a body
  that merges `{"message": message}` with the extra data); response bodies are
  modelled as association lists of string pairs.
* The try/except chains differ slightly per file (delete/get have no
  ValidationError or RequestException branch), but on the exceptions each
  handler can actually raise the induced mapping to responses coincides, so a
  single `handle_exceptions` is shared: ValidationError ↦ 400 with the joined
  field messages, HTTPException ↦ its own status and detail, RequestException
  and every other exception ↦ 500 with the stringified error.
-/

/-- Lambda response produced by the shared data_response helper: a status code
and a JSON body modelled as an association list (message first, then the
extra_data entries merged in). -/
structure Response where
  statusCode : Nat
  body : List (String × String)
deriving DecidableEq, Repr

/-- data_response(status_code, message, extra_data) from the source: body is
the message entry followed by the extra data entries. -/
def data_response (statusCode : Nat) (message : String) (extra : List (String × String)) : Response :=
  ⟨statusCode, ("message", message) :: extra⟩

/-- An HTTP status code in the 2xx success range. -/
def isSuccessRange (n : Nat) : Bool := 200 ≤ n && n < 300

/-- Lookup of a key in a JSON-object body modelled as an association list. -/
def lookupField : List (String × String) → String → Option String
  | [], _ => none
  | (k, v) :: rest, key => if k = key then some v else lookupField rest key

/-- List-of-characters prefix test. -/
def startsWithList : List Char → List Char → Bool
  | _, [] => true
  | [], _ :: _ => false
  | c :: cs, q :: qs => (c = q) && startsWithList cs qs

/-- List-of-characters infix test. -/
def hasInfixList : List Char → List Char → Bool
  | [], p => startsWithList [] p
  | c :: cs, p => startsWithList (c :: cs) p || hasInfixList cs p

/-- Substring test, used to state that an error message references a field. -/
def strContains (s pat : String) : Bool := hasInfixList s.toList pat.toList

/-- Exceptions that can cross a handler's try block, as distinguished by the
except chains of the source files. -/
inductive PyExn where
  | validationError (missing : List String)
  | httpException (statusCode : Nat) (detail : String)
  | requestException (msg : String)
  | otherError (msg : String)
deriving DecidableEq, Repr

/-- The 400 message the handlers build from a pydantic ValidationError:
one `loc: msg` entry per missing field, joined with commas. -/
def validation_message (missing : List String) : String :=
  String.intercalate ", " (missing.map (fun f => f ++ ": field required"))

/-- Required model fields absent from a payload dict (given by its key list). -/
def missingOf (required keys : List String) : List String :=
  required.filter (fun f => !(keys.contains f))

/-- Outcome of a dependency step (secret retrieval, DB connection, a MongoDB
operation): success, or a raised exception with its message. -/
inductive DepResult where
  | ok
  | failed (msg : String)
deriving DecidableEq, Repr

/-- Outcome of a call that either returns a value or raises some exception
caught only by the generic except branch. -/
inductive CallResult (α : Type) where
  | ok (value : α)
  | raisedError (msg : String)
deriving DecidableEq, Repr

/-- Outcome of an Alegra POST guarded by raise_for_status: a decoded JSON
value, a raised RequestException (HTTP error status or transport failure), or
any other raised exception (e.g. a JSON decode error). -/
inductive RemoteResult (α : Type) where
  | ok (value : α)
  | reqError (msg : String)
  | otherError (msg : String)
deriving DecidableEq, Repr

/-- Hex digit test for ObjectId validity. -/
def isHexChar (c : Char) : Bool :=
  c.isDigit || ( 'a' ≤ c && c ≤ 'f' ) || ( 'A' ≤ c && c ≤ 'F' )

/-- bson.ObjectId(s) succeeds exactly for 24-character hex strings. -/
def isValidObjectIdHex (s : String) : Bool :=
  s.length == 24 && s.toList.all isHexChar

/-- Shared translation of an escaped exception into the handler response, per
the except chains of the source files (see the module comment). -/
def handle_exceptions : Except PyExn Response → Response
  | .ok r => r
  | .error (.validationError ms) => data_response 400 (validation_message ms) []
  | .error (.httpException s d) => data_response s d []
  | .error (.requestException m) => data_response 500 m []
  | .error (.otherError m) => data_response 500 m []

namespace CreateApp

/-- Required fields of the pydantic Contact model in create-invoice/app.py. -/
def contactRequiredFields : List String :=
  ["nameObject", "identificationObject", "kindOfPerson", "regime", "name", "mobile", "email"]

/-- Required fields of the pydantic Invoice model in create-invoice/app.py. -/
def invoiceRequiredFields : List String :=
  ["client", "paymentForm", "items", "payments", "dueDate", "date"]

/-- Parsed request body: the optional contact and invoice sub-dicts, each
abstracted to its key list.  `none` covers both an absent key and a falsy
(empty) dict, since the source tests `if not contact_data`. -/
structure CreateBody where
  contact : Option (List String)
  invoice : Option (List String)
deriving DecidableEq, Repr

/-- The invoice document inserted into MongoDB: its locally generated _id,
the Alegra contact id stored under client, and the set of keys it carries. -/
structure StoredInvoice where
  localId : String
  clientId : String
  keys : List String
deriving DecidableEq, Repr

/-- Keys of the inserted invoice document: invoice.dict() of the pydantic
Invoice model plus the _id and timestamps set by the handler.  No field from
the Alegra createInvoice response is ever written to this document. -/
def storedInvoiceKeys : List String :=
  ["client", "paymentForm", "items", "payments", "dueDate", "date", "_id", "created_at", "updated_at"]

/-- A write against the invoices collection: the initial insert, or a
follow-up update of an existing document. -/
inductive InvWrite where
  | insertRecord (r : StoredInvoice)
  | updateRecord (localId : String) (keys : List String)
deriving DecidableEq, Repr

/-- Environment fixing every external interaction of create_invoice. -/
structure CreateEnv where
  bodyParse : CallResult CreateBody
  remoteContact : RemoteResult String
  secrets : DepResult
  dbConn : DepResult
  contactInsert : DepResult
  invoiceInsert : DepResult
  remoteInvoice : RemoteResult (List (String × String))
  newLocalId : String
deriving DecidableEq, Repr

/-- Side effects performed by one create_invoice run. -/
structure CreateTrace where
  remoteContactCalls : Nat
  remoteInvoiceCalls : Nat
  localContactWrites : List String
  localInvoiceWrites : List InvWrite
deriving DecidableEq, Repr

/-- Message of the TypeError raised when the source passes a plain string to
the pydantic ValidationError constructor (see the module comment). -/
def validationErrorCtorTypeError : String :=
  "TypeError: ValidationError cannot be constructed from a plain message string"

/-- create_invoice(event, context) up to the except chain: the body of the try
block, returning the produced response or escaped exception together with the
side-effect trace.  Follows the source line by line: parse body, check
contact, validate Contact, check invoice, validate Invoice, POST the contact
to Alegra (create_contact_in_alegra, guarded by raise_for_status), get
secrets, connect to MongoDB, insert the contact (with the Alegra contact id
as _id), insert the invoice (fresh ObjectId as _id, client set to the Alegra
contact id), then POST the invoice to Alegra (create_invoice_in_alegra). -/
def create_invoice_run (env : CreateEnv) : Except PyExn Response × CreateTrace :=
  match env.bodyParse with
  | .raisedError m => (.error (.otherError m), ⟨0, 0, [], []⟩)
  | .ok body =>
    match body.contact with
    | none => (.error (.otherError validationErrorCtorTypeError), ⟨0, 0, [], []⟩)
    | some contactKeys =>
      match missingOf contactRequiredFields contactKeys with
      | f :: fs => (.error (.validationError (f :: fs)), ⟨0, 0, [], []⟩)
      | [] =>
        match body.invoice with
        | none => (.error (.otherError validationErrorCtorTypeError), ⟨0, 0, [], []⟩)
        | some invoiceKeys =>
          match missingOf invoiceRequiredFields invoiceKeys with
          | f :: fs => (.error (.validationError (f :: fs)), ⟨0, 0, [], []⟩)
          | [] =>
            match env.remoteContact with
            | .reqError m => (.error (.requestException m), ⟨1, 0, [], []⟩)
            | .otherError m => (.error (.otherError m), ⟨1, 0, [], []⟩)
            | .ok contactId =>
              match env.secrets with
              | .failed m => (.error (.httpException 424 m), ⟨1, 0, [], []⟩)
              | .ok =>
                match env.dbConn with
                | .failed m => (.error (.httpException 424 m), ⟨1, 0, [], []⟩)
                | .ok =>
                  match env.contactInsert with
                  | .failed m => (.error (.otherError m), ⟨1, 0, [], []⟩)
                  | .ok =>
                    match env.invoiceInsert with
                    | .failed m => (.error (.otherError m), ⟨1, 0, [contactId], []⟩)
                    | .ok =>
                      match env.remoteInvoice with
                      | .reqError m =>
                        (.error (.requestException m),
                         ⟨1, 1, [contactId],
                          [.insertRecord ⟨env.newLocalId, contactId, storedInvoiceKeys⟩]⟩)
                      | .otherError m =>
                        (.error (.otherError m),
                         ⟨1, 1, [contactId],
                          [.insertRecord ⟨env.newLocalId, contactId, storedInvoiceKeys⟩]⟩)
                      | .ok fields =>
                        (.ok (data_response 201 "Invoice created successfully" fields),
                         ⟨1, 1, [contactId],
                          [.insertRecord ⟨env.newLocalId, contactId, storedInvoiceKeys⟩]⟩)

/-- create_invoice(event, context): the try body with its except chain
applied. -/
def create_invoice (env : CreateEnv) : Response × CreateTrace :=
  let r := create_invoice_run env
  (handle_exceptions r.fst, r.snd)

end CreateApp

namespace UpdateApp

/-- Required fields of the pydantic Invoice model in update-invoice/app.py. -/
def invoiceRequiredFields : List String :=
  ["client", "date", "total", "items"]

/-- Environment fixing every external interaction of update_invoice:
the path parameter, the parsed body (key list), the dependency steps, the
matched_count reported by update_one, and the outcome of the Alegra PUT
(update_invoice_in_alegra has no raise_for_status and no status check — it
returns response.json(), so its status code never matters; only a raised
exception, e.g. a transport or JSON decode failure, is distinguished). -/
structure UpdateEnv where
  pathId : String
  bodyParse : CallResult (List String)
  secrets : DepResult
  dbConn : DepResult
  matchedCount : Nat
  remoteUpdate : CallResult (List (String × String))
deriving DecidableEq, Repr

/-- Side effects performed by one update_invoice run.  remoteCalledWith
records the id passed to update_invoice_in_alegra. -/
structure UpdateTrace where
  localUpdateCalls : Nat
  localMatched : Nat
  remoteUpdateCalls : Nat
  remoteCalledWith : Option String
deriving DecidableEq, Repr

/-- update_invoice(event, context) up to the except chain.  Follows the
source: parse body, validate Invoice, get secrets, connect, run update_one
on ObjectId(invoice_id) (InvalidId escapes to the generic branch), raise a
404 HTTPException when matched_count is zero, otherwise PUT to Alegra using
the same path id and return 200 with the Alegra JSON merged in.  There is no
stored provider id: the remote call always receives the request path id. -/
def update_invoice_run (env : UpdateEnv) : Except PyExn Response × UpdateTrace :=
  match env.bodyParse with
  | .raisedError m => (.error (.otherError m), ⟨0, 0, 0, none⟩)
  | .ok bodyKeys =>
    match missingOf invoiceRequiredFields bodyKeys with
    | f :: fs => (.error (.validationError (f :: fs)), ⟨0, 0, 0, none⟩)
    | [] =>
      match env.secrets with
      | .failed m => (.error (.httpException 424 m), ⟨0, 0, 0, none⟩)
      | .ok =>
        match env.dbConn with
        | .failed m => (.error (.httpException 424 m), ⟨0, 0, 0, none⟩)
        | .ok =>
          if isValidObjectIdHex env.pathId then
            if env.matchedCount = 0 then
              (.error (.httpException 404 "Invoice not found in MongoDB"), ⟨1, 0, 0, none⟩)
            else
              match env.remoteUpdate with
              | .raisedError m =>
                (.error (.otherError m), ⟨1, env.matchedCount, 1, some env.pathId⟩)
              | .ok fields =>
                (.ok (data_response 200 "Invoice updated successfully" fields),
                 ⟨1, env.matchedCount, 1, some env.pathId⟩)
          else
            (.error (.otherError "bson InvalidId: path id is not a valid ObjectId"),
             ⟨0, 0, 0, none⟩)

/-- update_invoice(event, context): the try body with its except chain
applied. -/
def update_invoice (env : UpdateEnv) : Response × UpdateTrace :=
  let r := update_invoice_run env
  (handle_exceptions r.fst, r.snd)

end UpdateApp

namespace DeleteApp

/-- Environment fixing every external interaction of delete_invoice: the path
parameter, the dependency steps, the deleted_count reported by delete_one,
and the outcome of the Alegra DELETE (delete_invoice_in_alegra returns
response.json() with no status check, so only a raised exception is
distinguished). -/
structure DeleteEnv where
  pathId : String
  secrets : DepResult
  dbConn : DepResult
  deletedCount : Nat
  remoteDelete : CallResult (List (String × String))
deriving DecidableEq, Repr

/-- Side effects performed by one delete_invoice run.  localDeleted is the
number of documents removed by delete_one (its deleted_count). -/
structure DeleteTrace where
  localDeleteCalls : Nat
  localDeleted : Nat
  remoteDeleteCalls : Nat
  remoteCalledWith : Option String
deriving DecidableEq, Repr

/-- delete_invoice(event, context) up to the except chain.  Follows the
source: get secrets, connect, run delete_one on ObjectId(invoice_id)
(InvalidId escapes to the generic branch), raise a 404 HTTPException when
deleted_count is zero, otherwise DELETE in Alegra using the same path id and
return 200 with the Alegra JSON merged in.  The local deletion has already
committed when the remote call runs and is never rolled back. -/
def delete_invoice_run (env : DeleteEnv) : Except PyExn Response × DeleteTrace :=
  match env.secrets with
  | .failed m => (.error (.httpException 424 m), ⟨0, 0, 0, none⟩)
  | .ok =>
    match env.dbConn with
    | .failed m => (.error (.httpException 424 m), ⟨0, 0, 0, none⟩)
    | .ok =>
      if isValidObjectIdHex env.pathId then
        if env.deletedCount = 0 then
          (.error (.httpException 404 "Invoice not found in MongoDB"), ⟨1, 0, 0, none⟩)
        else
          match env.remoteDelete with
          | .raisedError m =>
            (.error (.otherError m), ⟨1, env.deletedCount, 1, some env.pathId⟩)
          | .ok fields =>
            (.ok (data_response 200 "Invoice deleted successfully" fields),
             ⟨1, env.deletedCount, 1, some env.pathId⟩)
      else
        (.error (.otherError "bson InvalidId: path id is not a valid ObjectId"),
         ⟨0, 0, 0, none⟩)

/-- delete_invoice(event, context): the try body with its except chain
applied. -/
def delete_invoice (env : DeleteEnv) : Response × DeleteTrace :=
  let r := delete_invoice_run env
  (handle_exceptions r.fst, r.snd)

end DeleteApp

namespace GetApp

/-- Outcome of the Alegra GET in get_invoice_details_from_alegra: a decoded
JSON body (returned for every status except 404 — the helper only checks
response.status_code == 404), a 404 status (which raises an HTTPException
404), or a raised exception (transport or JSON decode failure). -/
inductive RemoteGetResult where
  | okJson (fields : List (String × String))
  | notFound404
  | raisedError (msg : String)
deriving DecidableEq, Repr

/-- Environment fixing every external interaction of get_invoice: the path
parameter, the dependency steps, the find_one result, and the Alegra GET
outcome used only on the fallback path. -/
structure GetEnv where
  pathId : String
  secrets : DepResult
  dbConn : DepResult
  localRecord : Option (List (String × String))
  remoteGet : RemoteGetResult
deriving DecidableEq, Repr

/-- Side effects performed by one get_invoice run. -/
structure GetTrace where
  localLookups : Nat
  remoteGetCalls : Nat
  remoteCalledWith : Option String
deriving DecidableEq, Repr

/-- get_invoice(event, context) up to the except chain.  Follows the source:
get secrets, connect, find_one on ObjectId(invoice_id) (InvalidId escapes to
the generic branch before any lookup completes), return the local document
when found; otherwise fall back to get_invoice_details_from_alegra with the
same path id, which raises HTTPException 404 on a remote 404 and returns the
decoded JSON on any other status. -/
def get_invoice_run (env : GetEnv) : Except PyExn Response × GetTrace :=
  match env.secrets with
  | .failed m => (.error (.httpException 424 m), ⟨0, 0, none⟩)
  | .ok =>
    match env.dbConn with
    | .failed m => (.error (.httpException 424 m), ⟨0, 0, none⟩)
    | .ok =>
      if isValidObjectIdHex env.pathId then
        match env.localRecord with
        | some fields =>
          (.ok (data_response 200 "Invoice retrieved successfully" fields), ⟨1, 0, none⟩)
        | none =>
          match env.remoteGet with
          | .notFound404 =>
            (.error (.httpException 404 "Invoice not found in Alegra"),
             ⟨1, 1, some env.pathId⟩)
          | .okJson fields =>
            (.ok (data_response 200 "Invoice retrieved successfully" fields),
             ⟨1, 1, some env.pathId⟩)
          | .raisedError m => (.error (.otherError m), ⟨1, 1, some env.pathId⟩)
      else
        (.error (.otherError "bson InvalidId: path id is not a valid ObjectId"),
         ⟨0, 0, none⟩)

/-- get_invoice(event, context): the try body with its except chain
applied. -/
def get_invoice (env : GetEnv) : Response × GetTrace :=
  let r := get_invoice_run env
  (handle_exceptions r.fst, r.snd)

/-- Environment for the two-source get_invoices of get-invoice/app.py: the
dependency steps, the list(find()) result and the Alegra list result, each an
opaque serialized collection (this file's get_invoices_from_alegra performs
no status check and returns response.json() as is). -/
structure ListEnv where
  secrets : DepResult
  dbConn : DepResult
  localList : CallResult String
  remoteList : CallResult String
deriving DecidableEq, Repr

/-- Side effects performed by one two-source get_invoices run. -/
structure ListTrace where
  localListCalls : Nat
  remoteListCalls : Nat
deriving DecidableEq, Repr

/-- get_invoices(event, context) of get-invoice/app.py up to the except
chain: query MongoDB, query Alegra, and return both collections under the
labels mongodb_invoices and alegra_invoices, passed through verbatim with no
merge, deduplication or reconciliation. -/
def get_invoices_run (env : ListEnv) : Except PyExn Response × ListTrace :=
  match env.secrets with
  | .failed m => (.error (.httpException 424 m), ⟨0, 0⟩)
  | .ok =>
    match env.dbConn with
    | .failed m => (.error (.httpException 424 m), ⟨0, 0⟩)
    | .ok =>
      match env.localList with
      | .raisedError m => (.error (.otherError m), ⟨1, 0⟩)
      | .ok localInvoices =>
        match env.remoteList with
        | .raisedError m => (.error (.otherError m), ⟨1, 1⟩)
        | .ok alegraInvoices =>
          (.ok (data_response 200 "Invoices retrieved successfully"
            [("mongodb_invoices", localInvoices), ("alegra_invoices", alegraInvoices)]),
           ⟨1, 1⟩)

/-- get_invoices(event, context) of get-invoice/app.py: the try body with its
except chain applied. -/
def get_invoices (env : ListEnv) : Response × ListTrace :=
  let r := get_invoices_run env
  (handle_exceptions r.fst, r.snd)

end GetApp

namespace GetAllApp

/-- Outcome of the Alegra GET in get-all-invoices/app.py: a 200 status with a
decoded JSON payload, a non-200 status (the helper raises
HTTPException(status, text)), or a raised exception. -/
inductive ListRemoteResult where
  | okJson (payload : String)
  | badStatus (code : Nat) (text : String)
  | raisedError (msg : String)
deriving DecidableEq, Repr

/-- A fastapi HTTPException as raised out of the get-all-invoices handler. -/
structure HttpExc where
  statusCode : Nat
  detail : String
deriving DecidableEq, Repr

/-- Result of the get-all-invoices handler, which (unlike the other four)
returns a raw dict on success and re-raises an HTTPException on failure
instead of building a data_response. -/
inductive ListOutcome where
  | bodyDict (fields : List (String × String))
  | raisedExc (e : HttpExc)
deriving DecidableEq, Repr

/-- get_invoices_from_alegra of get-all-invoices/app.py: returns the decoded
JSON on status 200, raises HTTPException(status, text) on any other status,
and lets transport or decode exceptions escape. -/
def get_invoices_from_alegra (r : ListRemoteResult) : Except PyExn String :=
  match r with
  | .okJson payload => .ok payload
  | .badStatus code text => .error (.httpException code text)
  | .raisedError m => .error (.otherError m)

/-- get_invoices(event, context) of get-all-invoices/app.py: queries only
Alegra and on success returns a dict with the message and the single
alegra_invoices collection — no MongoDB query and no local collection.  An
HTTPException is re-raised; any other exception is wrapped in
HTTPException(500, str(err)). -/
def get_invoices (r : ListRemoteResult) : ListOutcome :=
  match get_invoices_from_alegra r with
  | .ok alegraInvoices =>
    .bodyDict [("message", "Invoices retrieved successfully"),
               ("alegra_invoices", alegraInvoices)]
  | .error (.httpException code detail) => .raisedExc ⟨code, detail⟩
  | .error (.validationError ms) => .raisedExc ⟨500, validation_message ms⟩
  | .error (.requestException m) => .raisedExc ⟨500, m⟩
  | .error (.otherError m) => .raisedExc ⟨500, m⟩

end GetAllApp

/-! Concrete scenario environments used to instantiate the claims. -/

/-- A well-formed 24-character hex ObjectId string. -/
def validLocalId : String := "0123456789abcdef01234567"

namespace CreateApp

/-- A parsed body whose contact and invoice dicts carry exactly the required
fields of their pydantic models. -/
def wellFormedBody : CreateBody :=
  ⟨some contactRequiredFields, some invoiceRequiredFields⟩

/-- Healthy local store, contact creation succeeds, the remote createInvoice
call fails with an HTTP 500 raised by raise_for_status. -/
def envRemoteInvoiceErr : CreateEnv :=
  ⟨.ok wellFormedBody, .ok "77", .ok, .ok, .ok, .ok,
   .reqError "500 Server Error for url api.alegra.com invoices", validLocalId⟩

/-- Everything succeeds; Alegra returns its invoice id and number. -/
def envFullSuccess : CreateEnv :=
  ⟨.ok wellFormedBody, .ok "77", .ok, .ok, .ok, .ok,
   .ok [("id", "901"), ("invoiceNumber", "FV-1")], validLocalId⟩

/-- The remote contact creation is rejected by Alegra. -/
def envContactErr : CreateEnv :=
  ⟨.ok wellFormedBody, .reqError "400 Client Error contact rejected", .ok, .ok, .ok, .ok,
   .ok [], validLocalId⟩

/-- A payload with no contact key at all. -/
def envMissingContact : CreateEnv :=
  ⟨.ok ⟨none, some invoiceRequiredFields⟩, .ok "77", .ok, .ok, .ok, .ok, .ok [], validLocalId⟩

/-- A payload whose invoice dict lacks the required client field. -/
def envMissingClientField : CreateEnv :=
  ⟨.ok ⟨some contactRequiredFields, some ["paymentForm", "items", "payments", "dueDate", "date"]⟩,
   .ok "77", .ok, .ok, .ok, .ok, .ok [], validLocalId⟩

end CreateApp

namespace UpdateApp

/-- Valid body and path id; the local update matches one document (one that,
like every document this system writes, stores no provider id); the Alegra
PUT returns JSON. -/
def envMatched : UpdateEnv :=
  ⟨validLocalId, .ok invoiceRequiredFields, .ok, .ok, 1, .ok [("id", "9")]⟩

end UpdateApp

namespace DeleteApp

/-- Valid path id matching no local document. -/
def envMissing : DeleteEnv :=
  ⟨validLocalId, .ok, .ok, 0, .ok [("deleted", "true")]⟩

/-- Valid path id, one local document deleted, then the Alegra DELETE raises
a transport error. -/
def envRemoteErr : DeleteEnv :=
  ⟨validLocalId, .ok, .ok, 1, .raisedError "connection reset by peer"⟩

end DeleteApp

namespace GetApp

/-- Valid path id absent locally; the Alegra GET raises a transport error. -/
def envRemoteErr : GetEnv :=
  ⟨validLocalId, .ok, .ok, none, .raisedError "connection timeout to alegra"⟩

/-- Valid path id absent locally; Alegra returns status 404. -/
def envRemote404 : GetEnv :=
  ⟨validLocalId, .ok, .ok, none, .notFound404⟩

/-- A path id that is not a 24-character hex string. -/
def envBadId : GetEnv :=
  ⟨"not-a-valid-object-id", .ok, .ok, none, .notFound404⟩

/-- Both list sources answer. -/
def envListOk : ListEnv :=
  ⟨.ok, .ok, .ok "local invoice array", .ok "alegra invoice array"⟩

end GetApp

/-! Claim theorems. -/

/-- C2: for every create request with a well-formed embedded contact and
invoice, if the remote Alegra contact creation fails (an HTTP error raised by
raise_for_status, or any other raised error), create_invoice aborts with a
failure response — status 500, outside the success range — and performs zero
local writes: no contact document and no invoice document is inserted. -/
theorem create_contact_failure_no_local_writes
    (env : CreateApp.CreateEnv) (b : CreateApp.CreateBody)
    (ck ik : List String) (m : String)
    (hb : env.bodyParse = .ok b)
    (hck : b.contact = some ck)
    (hcv : missingOf CreateApp.contactRequiredFields ck = [])
    (hik : b.invoice = some ik)
    (hiv : missingOf CreateApp.invoiceRequiredFields ik = [])
    (hr : env.remoteContact = .reqError m ∨ env.remoteContact = .otherError m) :
    (CreateApp.create_invoice env).fst.statusCode = 500 ∧
    isSuccessRange (CreateApp.create_invoice env).fst.statusCode = false ∧
    (CreateApp.create_invoice env).snd.localContactWrites = [] ∧
    (CreateApp.create_invoice env).snd.localInvoiceWrites = [] := by
  rcases hr with hr | hr <;>
    simp [CreateApp.create_invoice, CreateApp.create_invoice_run, hb, hck, hcv, hik, hiv, hr,
      handle_exceptions, data_response, isSuccessRange]

/-- C2 witness: the theorem applied to a concrete environment in which Alegra
rejects the contact. -/
theorem create_contact_failure_no_local_writes_w :
    (CreateApp.create_invoice CreateApp.envContactErr).fst.statusCode = 500 ∧
    isSuccessRange (CreateApp.create_invoice CreateApp.envContactErr).fst.statusCode = false ∧
    (CreateApp.create_invoice CreateApp.envContactErr).snd.localContactWrites = [] ∧
    (CreateApp.create_invoice CreateApp.envContactErr).snd.localInvoiceWrites = [] :=
  create_contact_failure_no_local_writes CreateApp.envContactErr CreateApp.wellFormedBody
    CreateApp.contactRequiredFields CreateApp.invoiceRequiredFields
    "400 Client Error contact rejected" rfl rfl (by decide) rfl (by decide) (Or.inl rfl)

/-- C1 counterexample: with a healthy local store and the remote createInvoice
call failing with an HTTP 500, create_invoice returns status 500 — not a
success-range status — and its body carries neither an outcome field nor the
local record id, contrary to the claimed success-range LocalOnly response. -/
theorem create_remote_invoice_failure_not_success_range :
    (CreateApp.create_invoice CreateApp.envRemoteInvoiceErr).fst.statusCode = 500 ∧
    isSuccessRange (CreateApp.create_invoice CreateApp.envRemoteInvoiceErr).fst.statusCode = false ∧
    lookupField (CreateApp.create_invoice CreateApp.envRemoteInvoiceErr).fst.body "outcome" = none ∧
    lookupField (CreateApp.create_invoice CreateApp.envRemoteInvoiceErr).fst.body "_id" = none := by
  decide

/-- C1 amended: if the local writes succeed and the remote createInvoice call
then fails, create_invoice returns status 500 whose body holds only the error
message (no outcome marker, no local id); the local invoice record does
persist — the sole local invoice write is the initial insert — and it stores
no provider-returned field, so it remains unsynced. -/
theorem create_remote_invoice_failure_500_local_persists
    (env : CreateApp.CreateEnv) (b : CreateApp.CreateBody)
    (ck ik : List String) (cid m : String)
    (hb : env.bodyParse = .ok b)
    (hck : b.contact = some ck)
    (hcv : missingOf CreateApp.contactRequiredFields ck = [])
    (hik : b.invoice = some ik)
    (hiv : missingOf CreateApp.invoiceRequiredFields ik = [])
    (hrc : env.remoteContact = .ok cid)
    (hs : env.secrets = .ok) (hd : env.dbConn = .ok)
    (hci : env.contactInsert = .ok) (hii : env.invoiceInsert = .ok)
    (hri : env.remoteInvoice = .reqError m) :
    (CreateApp.create_invoice env).fst = ⟨500, [("message", m)]⟩ ∧
    isSuccessRange (CreateApp.create_invoice env).fst.statusCode = false ∧
    (CreateApp.create_invoice env).snd.localInvoiceWrites =
      [.insertRecord ⟨env.newLocalId, cid, CreateApp.storedInvoiceKeys⟩] ∧
    CreateApp.storedInvoiceKeys.contains "_id" = true ∧
    CreateApp.storedInvoiceKeys.contains "id" = false := by
  simp [CreateApp.create_invoice, CreateApp.create_invoice_run, hb, hck, hcv, hik, hiv,
    hrc, hs, hd, hci, hii, hri, handle_exceptions, data_response, isSuccessRange,
    CreateApp.storedInvoiceKeys]

/-- C1 amended witness: the amended theorem applied to the concrete
remote-500 environment. -/
theorem create_remote_invoice_failure_500_local_persists_w :
    (CreateApp.create_invoice CreateApp.envRemoteInvoiceErr).fst =
      ⟨500, [("message", "500 Server Error for url api.alegra.com invoices")]⟩ ∧
    isSuccessRange (CreateApp.create_invoice CreateApp.envRemoteInvoiceErr).fst.statusCode = false ∧
    (CreateApp.create_invoice CreateApp.envRemoteInvoiceErr).snd.localInvoiceWrites =
      [.insertRecord ⟨validLocalId, "77", CreateApp.storedInvoiceKeys⟩] ∧
    CreateApp.storedInvoiceKeys.contains "_id" = true ∧
    CreateApp.storedInvoiceKeys.contains "id" = false :=
  create_remote_invoice_failure_500_local_persists CreateApp.envRemoteInvoiceErr
    CreateApp.wellFormedBody CreateApp.contactRequiredFields CreateApp.invoiceRequiredFields
    "77" "500 Server Error for url api.alegra.com invoices"
    rfl rfl (by decide) rfl (by decide) rfl rfl rfl rfl rfl rfl

/-- C6 counterexample: on a fully successful create the provider id comes back
only in the response body; the sole local invoice write is the initial insert
and the stored document has no provider-returned key, so no follow-up local
update merges the provider fields into the local record. -/
theorem create_success_no_followup_local_update :
    (CreateApp.create_invoice CreateApp.envFullSuccess).fst.statusCode = 201 ∧
    lookupField (CreateApp.create_invoice CreateApp.envFullSuccess).fst.body "id" = some "901" ∧
    (CreateApp.create_invoice CreateApp.envFullSuccess).snd.localInvoiceWrites =
      [.insertRecord ⟨validLocalId, "77", CreateApp.storedInvoiceKeys⟩] ∧
    CreateApp.storedInvoiceKeys.contains "id" = false := by
  decide

/-- C6 amended: on a fully successful create the handler returns 201 with the
provider-returned fields merged into the response body only; the single local
invoice write is the initial insert, whose document carries exactly the
pydantic invoice fields plus _id and timestamps and no provider-returned
field — there is no follow-up local update and no FullySynced marker. -/
theorem create_full_success_201_no_merge_back
    (env : CreateApp.CreateEnv) (b : CreateApp.CreateBody)
    (ck ik : List String) (cid : String) (fields : List (String × String))
    (hb : env.bodyParse = .ok b)
    (hck : b.contact = some ck)
    (hcv : missingOf CreateApp.contactRequiredFields ck = [])
    (hik : b.invoice = some ik)
    (hiv : missingOf CreateApp.invoiceRequiredFields ik = [])
    (hrc : env.remoteContact = .ok cid)
    (hs : env.secrets = .ok) (hd : env.dbConn = .ok)
    (hci : env.contactInsert = .ok) (hii : env.invoiceInsert = .ok)
    (hri : env.remoteInvoice = .ok fields) :
    (CreateApp.create_invoice env).fst =
      ⟨201, ("message", "Invoice created successfully") :: fields⟩ ∧
    (CreateApp.create_invoice env).snd.localInvoiceWrites =
      [.insertRecord ⟨env.newLocalId, cid, CreateApp.storedInvoiceKeys⟩] ∧
    CreateApp.storedInvoiceKeys.contains "id" = false := by
  simp [CreateApp.create_invoice, CreateApp.create_invoice_run, hb, hck, hcv, hik, hiv,
    hrc, hs, hd, hci, hii, hri, handle_exceptions, data_response,
    CreateApp.storedInvoiceKeys]

/-- C6 amended witness: the amended theorem applied to the concrete
full-success environment. -/
theorem create_full_success_201_no_merge_back_w :
    (CreateApp.create_invoice CreateApp.envFullSuccess).fst =
      ⟨201, ("message", "Invoice created successfully") ::
        [("id", "901"), ("invoiceNumber", "FV-1")]⟩ ∧
    (CreateApp.create_invoice CreateApp.envFullSuccess).snd.localInvoiceWrites =
      [.insertRecord ⟨validLocalId, "77", CreateApp.storedInvoiceKeys⟩] ∧
    CreateApp.storedInvoiceKeys.contains "id" = false :=
  create_full_success_201_no_merge_back CreateApp.envFullSuccess
    CreateApp.wellFormedBody CreateApp.contactRequiredFields CreateApp.invoiceRequiredFields
    "77" [("id", "901"), ("invoiceNumber", "FV-1")]
    rfl rfl (by decide) rfl (by decide) rfl rfl rfl rfl rfl rfl

/-- C8 (code-bug evidence): with the contact key missing from the payload the
handler reaches raise ValidationError of a plain string, whose constructor
call itself raises a TypeError, so the generic except branch answers 500 —
not the intended 400 — though still with zero side effects; by contrast a
payload whose invoice dict merely lacks the client field takes the genuine
pydantic ValidationError path and yields the intended 400 whose message
references client, also with zero side effects. -/
theorem create_missing_contact_returns_500_not_400 :
    (CreateApp.create_invoice CreateApp.envMissingContact).fst.statusCode = 500 ∧
    (CreateApp.create_invoice CreateApp.envMissingContact).snd = ⟨0, 0, [], []⟩ ∧
    (CreateApp.create_invoice CreateApp.envMissingClientField).fst.statusCode = 400 ∧
    (CreateApp.create_invoice CreateApp.envMissingClientField).fst.body =
      [("message", validation_message ["client"])] ∧
    strContains (validation_message ["client"]) "client" = true ∧
    (CreateApp.create_invoice CreateApp.envMissingClientField).snd = ⟨0, 0, [], []⟩ := by
  decide

/-- C3 counterexample: updating an invoice that was never remote-synced (like
every document this system writes, the matched local record stores no
provider id — the insert key set has no such field) still triggers exactly
one remote updateInvoice call, made with the request path id, and the
response carries no LocalOnly outcome field, contrary to the claimed skip. -/
theorem update_unsynced_still_calls_remote :
    (UpdateApp.update_invoice UpdateApp.envMatched).snd.remoteUpdateCalls = 1 ∧
    (UpdateApp.update_invoice UpdateApp.envMatched).snd.remoteCalledWith = some validLocalId ∧
    (UpdateApp.update_invoice UpdateApp.envMatched).fst.statusCode = 200 ∧
    lookupField (UpdateApp.update_invoice UpdateApp.envMatched).fst.body "outcome" = none ∧
    CreateApp.storedInvoiceKeys.contains "providerId" = false := by
  decide

/-- C3 amended: the handler records no provider id and has no LocalOnly
outcome; whenever the local update matches, the remote updateInvoice call is
always attempted, exactly once, using the request path id (the local id)
itself; with the provider returning parseable JSON the response is 200 with
that JSON merged in, and a raised remote error yields 500. -/
theorem update_matched_always_calls_remote_with_path_id
    (env : UpdateApp.UpdateEnv) (bodyKeys : List String)
    (hb : env.bodyParse = .ok bodyKeys)
    (hv : missingOf UpdateApp.invoiceRequiredFields bodyKeys = [])
    (hs : env.secrets = .ok) (hd : env.dbConn = .ok)
    (hvalid : isValidObjectIdHex env.pathId = true)
    (hm : env.matchedCount ≠ 0) :
    (UpdateApp.update_invoice env).snd.localUpdateCalls = 1 ∧
    (UpdateApp.update_invoice env).snd.remoteUpdateCalls = 1 ∧
    (UpdateApp.update_invoice env).snd.remoteCalledWith = some env.pathId ∧
    (∀ fields, env.remoteUpdate = .ok fields →
      (UpdateApp.update_invoice env).fst =
        ⟨200, ("message", "Invoice updated successfully") :: fields⟩) ∧
    (∀ m, env.remoteUpdate = .raisedError m →
      (UpdateApp.update_invoice env).fst.statusCode = 500) := by
  cases hru : env.remoteUpdate with
  | ok fields =>
    refine ⟨?_, ?_, ?_, ?_, ?_⟩ <;>
      simp [UpdateApp.update_invoice, UpdateApp.update_invoice_run, hb, hv, hs, hd,
        hvalid, hm, hru, handle_exceptions, data_response]
  | raisedError m =>
    refine ⟨?_, ?_, ?_, ?_, ?_⟩ <;>
      simp [UpdateApp.update_invoice, UpdateApp.update_invoice_run, hb, hv, hs, hd,
        hvalid, hm, hru, handle_exceptions, data_response]

/-- C3 amended witness: the amended theorem applied to the concrete matched
environment. -/
theorem update_matched_always_calls_remote_with_path_id_w :
    (UpdateApp.update_invoice UpdateApp.envMatched).snd.localUpdateCalls = 1 ∧
    (UpdateApp.update_invoice UpdateApp.envMatched).snd.remoteUpdateCalls = 1 ∧
    (UpdateApp.update_invoice UpdateApp.envMatched).snd.remoteCalledWith =
      some UpdateApp.envMatched.pathId ∧
    (∀ fields, UpdateApp.envMatched.remoteUpdate = .ok fields →
      (UpdateApp.update_invoice UpdateApp.envMatched).fst =
        ⟨200, ("message", "Invoice updated successfully") :: fields⟩) ∧
    (∀ m, UpdateApp.envMatched.remoteUpdate = .raisedError m →
      (UpdateApp.update_invoice UpdateApp.envMatched).fst.statusCode = 500) :=
  update_matched_always_calls_remote_with_path_id UpdateApp.envMatched
    UpdateApp.invoiceRequiredFields rfl (by decide) rfl rfl (by decide) (by decide)

/-- C9: deleting a well-formed local id that matches no local document (zero
records deleted) yields a 404 response with the MongoDB not-found message,
and the remote delete is never attempted. -/
theorem delete_nonexistent_404_no_remote
    (env : DeleteApp.DeleteEnv)
    (hs : env.secrets = .ok) (hd : env.dbConn = .ok)
    (hv : isValidObjectIdHex env.pathId = true)
    (h0 : env.deletedCount = 0) :
    (DeleteApp.delete_invoice env).fst = ⟨404, [("message", "Invoice not found in MongoDB")]⟩ ∧
    (DeleteApp.delete_invoice env).snd.remoteDeleteCalls = 0 ∧
    (DeleteApp.delete_invoice env).snd.remoteCalledWith = none := by
  simp [DeleteApp.delete_invoice, DeleteApp.delete_invoice_run, hs, hd, hv, h0,
    handle_exceptions, data_response]

/-- C9 witness: the theorem applied to a concrete environment whose local
delete affects zero documents. -/
theorem delete_nonexistent_404_no_remote_w :
    (DeleteApp.delete_invoice DeleteApp.envMissing).fst =
      ⟨404, [("message", "Invoice not found in MongoDB")]⟩ ∧
    (DeleteApp.delete_invoice DeleteApp.envMissing).snd.remoteDeleteCalls = 0 ∧
    (DeleteApp.delete_invoice DeleteApp.envMissing).snd.remoteCalledWith = none :=
  delete_nonexistent_404_no_remote DeleteApp.envMissing rfl rfl (by decide) rfl

/-- C5 counterexample: when the local delete removes one document and the
remote delete call then raises, the local record stays removed but the
response status is 500, not the claimed unconditional 200. -/
theorem delete_remote_exception_returns_500 :
    (DeleteApp.delete_invoice DeleteApp.envRemoteErr).snd.localDeleted = 1 ∧
    (DeleteApp.delete_invoice DeleteApp.envRemoteErr).fst.statusCode = 500 ∧
    isSuccessRange (DeleteApp.delete_invoice DeleteApp.envRemoteErr).fst.statusCode = false := by
  decide

/-- C5 amended: on an existing local id the local deletion always commits
(and is never rolled back) and the remote delete is attempted once with the
path id; the response is 200 with the provider JSON merged in when the remote
call returns parseable JSON — whatever its HTTP status — but 500 when the
remote call raises, even though the local record was removed. -/
theorem delete_existing_local_removed_remote_best_effort
    (env : DeleteApp.DeleteEnv)
    (hs : env.secrets = .ok) (hd : env.dbConn = .ok)
    (hv : isValidObjectIdHex env.pathId = true)
    (hk : env.deletedCount ≠ 0) :
    (DeleteApp.delete_invoice env).snd.localDeleted = env.deletedCount ∧
    (DeleteApp.delete_invoice env).snd.remoteDeleteCalls = 1 ∧
    (DeleteApp.delete_invoice env).snd.remoteCalledWith = some env.pathId ∧
    (∀ fields, env.remoteDelete = .ok fields →
      (DeleteApp.delete_invoice env).fst =
        ⟨200, ("message", "Invoice deleted successfully") :: fields⟩) ∧
    (∀ m, env.remoteDelete = .raisedError m →
      (DeleteApp.delete_invoice env).fst.statusCode = 500) := by
  cases hrd : env.remoteDelete with
  | ok fields =>
    refine ⟨?_, ?_, ?_, ?_, ?_⟩ <;>
      simp [DeleteApp.delete_invoice, DeleteApp.delete_invoice_run, hs, hd, hv, hk, hrd,
        handle_exceptions, data_response]
  | raisedError m =>
    refine ⟨?_, ?_, ?_, ?_, ?_⟩ <;>
      simp [DeleteApp.delete_invoice, DeleteApp.delete_invoice_run, hs, hd, hv, hk, hrd,
        handle_exceptions, data_response]

/-- C5 amended witness: the amended theorem applied to the concrete
environment whose remote delete raises after a successful local delete. -/
theorem delete_existing_local_removed_remote_best_effort_w :
    (DeleteApp.delete_invoice DeleteApp.envRemoteErr).snd.localDeleted =
      DeleteApp.envRemoteErr.deletedCount ∧
    (DeleteApp.delete_invoice DeleteApp.envRemoteErr).snd.remoteDeleteCalls = 1 ∧
    (DeleteApp.delete_invoice DeleteApp.envRemoteErr).snd.remoteCalledWith =
      some DeleteApp.envRemoteErr.pathId ∧
    (∀ fields, DeleteApp.envRemoteErr.remoteDelete = .ok fields →
      (DeleteApp.delete_invoice DeleteApp.envRemoteErr).fst =
        ⟨200, ("message", "Invoice deleted successfully") :: fields⟩) ∧
    (∀ m, DeleteApp.envRemoteErr.remoteDelete = .raisedError m →
      (DeleteApp.delete_invoice DeleteApp.envRemoteErr).fst.statusCode = 500) :=
  delete_existing_local_removed_remote_best_effort DeleteApp.envRemoteErr
    rfl rfl (by decide) (by decide)

/-- C4 counterexample: with the id absent locally and the remote GET raising
a transport failure, the fallback remote lookup is attempted and fails, yet
the handler answers 500, not the claimed NotFound 404. -/
theorem get_remote_failure_returns_500_not_404 :
    (GetApp.get_invoice GetApp.envRemoteErr).snd.remoteGetCalls = 1 ∧
    (GetApp.get_invoice GetApp.envRemoteErr).fst.statusCode = 500 := by
  decide

/-- C4 amended: for a well-formed id with healthy dependencies, a local hit
returns 200 without any remote call; a local miss triggers exactly one remote
call with the requested path id; a remote 404 surfaces as NotFound 404, but a
raised remote failure surfaces as 500 — and a remote error body that still
parses as JSON even surfaces as 200. -/
theorem get_local_first_remote_fallback
    (env : GetApp.GetEnv)
    (hs : env.secrets = .ok) (hd : env.dbConn = .ok)
    (hv : isValidObjectIdHex env.pathId = true) :
    (∀ fields, env.localRecord = some fields →
      (GetApp.get_invoice env).snd.remoteGetCalls = 0 ∧
      (GetApp.get_invoice env).fst =
        ⟨200, ("message", "Invoice retrieved successfully") :: fields⟩) ∧
    (env.localRecord = none →
      (GetApp.get_invoice env).snd.remoteGetCalls = 1 ∧
      (GetApp.get_invoice env).snd.remoteCalledWith = some env.pathId) ∧
    (env.localRecord = none → env.remoteGet = .notFound404 →
      (GetApp.get_invoice env).fst = ⟨404, [("message", "Invoice not found in Alegra")]⟩) ∧
    (∀ m, env.localRecord = none → env.remoteGet = .raisedError m →
      (GetApp.get_invoice env).fst.statusCode = 500) ∧
    (∀ fields, env.localRecord = none → env.remoteGet = .okJson fields →
      (GetApp.get_invoice env).fst.statusCode = 200) := by
  cases hl : env.localRecord <;> cases hr : env.remoteGet <;>
    simp [GetApp.get_invoice, GetApp.get_invoice_run, hs, hd, hv, hl, hr,
      handle_exceptions, data_response]

/-- C4 amended witness: the amended theorem applied to the concrete
local-miss environment whose remote GET answers 404. -/
theorem get_local_first_remote_fallback_w :
    (∀ fields, GetApp.envRemote404.localRecord = some fields →
      (GetApp.get_invoice GetApp.envRemote404).snd.remoteGetCalls = 0 ∧
      (GetApp.get_invoice GetApp.envRemote404).fst =
        ⟨200, ("message", "Invoice retrieved successfully") :: fields⟩) ∧
    (GetApp.envRemote404.localRecord = none →
      (GetApp.get_invoice GetApp.envRemote404).snd.remoteGetCalls = 1 ∧
      (GetApp.get_invoice GetApp.envRemote404).snd.remoteCalledWith =
        some GetApp.envRemote404.pathId) ∧
    (GetApp.envRemote404.localRecord = none → GetApp.envRemote404.remoteGet = .notFound404 →
      (GetApp.get_invoice GetApp.envRemote404).fst =
        ⟨404, [("message", "Invoice not found in Alegra")]⟩) ∧
    (∀ m, GetApp.envRemote404.localRecord = none →
      GetApp.envRemote404.remoteGet = .raisedError m →
      (GetApp.get_invoice GetApp.envRemote404).fst.statusCode = 500) ∧
    (∀ fields, GetApp.envRemote404.localRecord = none →
      GetApp.envRemote404.remoteGet = .okJson fields →
      (GetApp.get_invoice GetApp.envRemote404).fst.statusCode = 200) :=
  get_local_first_remote_fallback GetApp.envRemote404 rfl rfl (by decide)

/-- C10: with healthy dependencies, a path id that is not a well-formed
ObjectId hex string makes the ObjectId constructor raise before any local
lookup completes, so the handler answers 500 with no local lookup and no
remote call; moreover, in any run whatsoever, the remote fallback is reached
only when the path id is a well-formed ObjectId hex string. -/
theorem get_invalid_objectid_500_no_fallback
    (env : GetApp.GetEnv)
    (hs : env.secrets = .ok) (hd : env.dbConn = .ok)
    (hv : isValidObjectIdHex env.pathId = false) :
    (GetApp.get_invoice env).fst.statusCode = 500 ∧
    (GetApp.get_invoice env).snd.localLookups = 0 ∧
    (GetApp.get_invoice env).snd.remoteGetCalls = 0 ∧
    (∀ e : GetApp.GetEnv, (GetApp.get_invoice e).snd.remoteGetCalls ≠ 0 →
      isValidObjectIdHex e.pathId = true) := by
  refine ⟨?_, ?_, ?_, ?_⟩
  · simp [GetApp.get_invoice, GetApp.get_invoice_run, hs, hd, hv, handle_exceptions,
      data_response]
  · simp [GetApp.get_invoice, GetApp.get_invoice_run, hs, hd, hv, handle_exceptions,
      data_response]
  · simp [GetApp.get_invoice, GetApp.get_invoice_run, hs, hd, hv, handle_exceptions,
      data_response]
  · intro e he
    by_cases hvb : isValidObjectIdHex e.pathId = true
    · exact hvb
    · exfalso
      apply he
      have hvf : isValidObjectIdHex e.pathId = false := by
        cases hb : isValidObjectIdHex e.pathId
        · rfl
        · exact absurd hb hvb
      cases hse : e.secrets with
      | failed m => simp [GetApp.get_invoice, GetApp.get_invoice_run, hse]
      | ok =>
        cases hde : e.dbConn with
        | failed m => simp [GetApp.get_invoice, GetApp.get_invoice_run, hse, hde]
        | ok => simp [GetApp.get_invoice, GetApp.get_invoice_run, hse, hde, hvf]

/-- C10 witness: the theorem applied to a concrete environment with a
malformed path id and healthy dependencies. -/
theorem get_invalid_objectid_500_no_fallback_w :
    (GetApp.get_invoice GetApp.envBadId).fst.statusCode = 500 ∧
    (GetApp.get_invoice GetApp.envBadId).snd.localLookups = 0 ∧
    (GetApp.get_invoice GetApp.envBadId).snd.remoteGetCalls = 0 ∧
    (∀ e : GetApp.GetEnv, (GetApp.get_invoice e).snd.remoteGetCalls ≠ 0 →
      isValidObjectIdHex e.pathId = true) :=
  get_invalid_objectid_500_no_fallback GetApp.envBadId rfl rfl (by decide)

/-- C7 counterexample: the list handler of get-all-invoices/app.py, on a
successful run, returns a body with only the single alegra_invoices
collection — there is no local mongodb_invoices collection in its response,
contrary to the claimed two labeled collections on every successful list. -/
theorem list_all_handler_returns_single_collection :
    GetAllApp.get_invoices (.okJson "remote invoice array") =
      .bodyDict [("message", "Invoices retrieved successfully"),
                 ("alegra_invoices", "remote invoice array")] ∧
    lookupField [("message", "Invoices retrieved successfully"),
                 ("alegra_invoices", "remote invoice array")] "mongodb_invoices" = none := by
  decide

/-- C7 amended: the two-source list handler of get-invoice/app.py, on
success, returns 200 with exactly the two labeled collections
mongodb_invoices and alegra_invoices passed through verbatim — no merge,
deduplication or reconciliation; but the handler of get-all-invoices/app.py
queries only Alegra and returns the single alegra_invoices collection. -/
theorem list_two_sources_returned_unmerged
    (env : GetApp.ListEnv) (l r : String)
    (hs : env.secrets = .ok) (hd : env.dbConn = .ok)
    (hl : env.localList = .ok l) (hr : env.remoteList = .ok r) :
    (GetApp.get_invoices env).fst =
      ⟨200, [("message", "Invoices retrieved successfully"),
             ("mongodb_invoices", l), ("alegra_invoices", r)]⟩ ∧
    (GetApp.get_invoices env).snd = ⟨1, 1⟩ ∧
    (∀ payload, GetAllApp.get_invoices (.okJson payload) =
      .bodyDict [("message", "Invoices retrieved successfully"),
                 ("alegra_invoices", payload)]) := by
  refine ⟨?_, ?_, ?_⟩
  · simp [GetApp.get_invoices, GetApp.get_invoices_run, hs, hd, hl, hr,
      handle_exceptions, data_response]
  · simp [GetApp.get_invoices, GetApp.get_invoices_run, hs, hd, hl, hr,
      handle_exceptions, data_response]
  · intro payload
    simp [GetAllApp.get_invoices, GetAllApp.get_invoices_from_alegra]

/-- C7 amended witness: the amended theorem applied to the concrete
environment in which both list sources answer. -/
theorem list_two_sources_returned_unmerged_w :
    (GetApp.get_invoices GetApp.envListOk).fst =
      ⟨200, [("message", "Invoices retrieved successfully"),
             ("mongodb_invoices", "local invoice array"),
             ("alegra_invoices", "alegra invoice array")]⟩ ∧
    (GetApp.get_invoices GetApp.envListOk).snd = ⟨1, 1⟩ ∧
    (∀ payload, GetAllApp.get_invoices (.okJson payload) =
      .bodyDict [("message", "Invoices retrieved successfully"),
                 ("alegra_invoices", payload)]) :=
  list_two_sources_returned_unmerged GetApp.envListOk
    "local invoice array" "alegra invoice array" rfl rfl rfl rfl
